import Mathlib

/-!
# Verification of the kaientai-F canvas / template-studio core

Shallow embedding, in Lean 4, of the algorithmic core of the kaientai-F
repository: the template-studio geometry engine
(`AdminTemplateStudioPage.tsx`), the canvas history manager
(`useCanvasHistory.ts`), the serialization recovery path
(`deserializeCanvas`), the auto-layout engine (`autoLayout.ts`) and the
cloud push sanitizer (`studioCloud.ts`).  JavaScript numbers are modelled
as rationals (`ℚ`); the few places where the source can see `NaN`
(`Number(x) || default`) are modelled explicitly with a `JsNum` type.
-/

namespace Kaientai

/-! ## Geometry & bounds utilities (AdminTemplateStudioPage.tsx) -/

/-- `MIN_ELEMENT_SIZE = 48`. -/
def MIN_ELEMENT_SIZE : ℚ := 48

/-- `DEFAULT_CANVAS_WIDTH = 900`. -/
def DEFAULT_CANVAS_WIDTH : ℚ := 900

/-- `DEFAULT_CANVAS_HEIGHT = 1273`. -/
def DEFAULT_CANVAS_HEIGHT : ℚ := 1273

/-- `Math.max(a, b)` on non-`NaN` numbers. -/
def jsMax (a b : ℚ) : ℚ := if a ≤ b then b else a

/-- `Math.min(a, b)` on non-`NaN` numbers. -/
def jsMin (a b : ℚ) : ℚ := if a ≤ b then a else b

theorem jsMax_eq_max (a b : ℚ) : jsMax a b = max a b := (max_def a b).symm

theorem jsMin_eq_min (a b : ℚ) : jsMin a b = min a b := (min_def a b).symm

/-- `clamp(value, min, max) = Math.min(max, Math.max(min, value))`.
The source's `Number.isNaN` guard cannot fire on `ℚ` inputs (no `NaN` in
the model); call sites that can produce `NaN` are modelled via `JsNum`
before reaching `clamp`. -/
def clamp (value lo hi : ℚ) : ℚ :=
  jsMin hi (jsMax lo value)

theorem clamp_eq_min_max (value lo hi : ℚ) :
    clamp value lo hi = min hi (max lo value) := by
  rw [clamp, jsMin_eq_min, jsMax_eq_max]

/-- `TemplateRect` from `types/studio.ts`. -/
structure TemplateRect where
  x : ℚ
  y : ℚ
  width : ℚ
  height : ℚ
  deriving DecidableEq, Repr

/-- `clampRectToCanvas(rect, canvasWidth, canvasHeight)`: clamp width/height
to `[MIN_ELEMENT_SIZE, canvasDim]`, then clamp x/y to `[0, canvasDim - dim]`. -/
def clampRectToCanvas (rect : TemplateRect) (canvasWidth canvasHeight : ℚ) :
    TemplateRect :=
  let width := clamp rect.width MIN_ELEMENT_SIZE canvasWidth
  let height := clamp rect.height MIN_ELEMENT_SIZE canvasHeight
  let x := clamp rect.x 0 (canvasWidth - width)
  let y := clamp rect.y 0 (canvasHeight - height)
  { x := x, y := y, width := width, height := height }

theorem clamp_le_hi (value lo hi : ℚ) : clamp value lo hi ≤ hi := by
  simp [clamp_eq_min_max]

theorem lo_le_clamp (value lo hi : ℚ) (h : lo ≤ hi) : lo ≤ clamp value lo hi := by
  simp [clamp_eq_min_max]
  rcases le_total lo value with h' | h' <;> simp [max_eq_left, max_eq_right, h', h]

theorem clamp_of_mem (value lo hi : ℚ) (h1 : lo ≤ value) (h2 : value ≤ hi) :
    clamp value lo hi = value := by
  simp [clamp_eq_min_max, max_eq_right h1, min_eq_right h2]

/-- C1 -- For every input rectangle and canvas bounds at least 48,
`clampRectToCanvas` returns a rectangle with width, height ≥ 48 lying fully
inside `[0, canvasWidth] × [0, canvasHeight]`, and it is idempotent. -/
theorem clampRectToCanvas_bounds_and_idem
    (rect : TemplateRect) (canvasWidth canvasHeight : ℚ)
    (hW : MIN_ELEMENT_SIZE ≤ canvasWidth) (hH : MIN_ELEMENT_SIZE ≤ canvasHeight) :
    let r := clampRectToCanvas rect canvasWidth canvasHeight
    MIN_ELEMENT_SIZE ≤ r.width ∧ MIN_ELEMENT_SIZE ≤ r.height ∧
    0 ≤ r.x ∧ r.x + r.width ≤ canvasWidth ∧
    0 ≤ r.y ∧ r.y + r.height ≤ canvasHeight ∧
    clampRectToCanvas r canvasWidth canvasHeight = r := by
  intro r
  have hwlo : MIN_ELEMENT_SIZE ≤ r.width := lo_le_clamp _ _ _ hW
  have hwhi : r.width ≤ canvasWidth := clamp_le_hi _ _ _
  have hhlo : MIN_ELEMENT_SIZE ≤ r.height := lo_le_clamp _ _ _ hH
  have hhhi : r.height ≤ canvasHeight := clamp_le_hi _ _ _
  have hxw : (0 : ℚ) ≤ canvasWidth - r.width := by linarith
  have hyh : (0 : ℚ) ≤ canvasHeight - r.height := by linarith
  have hxlo : 0 ≤ r.x := lo_le_clamp _ _ _ hxw
  have hxhi : r.x ≤ canvasWidth - r.width := clamp_le_hi _ _ _
  have hylo : 0 ≤ r.y := lo_le_clamp _ _ _ hyh
  have hyhi : r.y ≤ canvasHeight - r.height := clamp_le_hi _ _ _
  refine ⟨hwlo, hhlo, hxlo, by linarith, hylo, by linarith, ?_⟩
  show clampRectToCanvas r canvasWidth canvasHeight = r
  have ew : clamp r.width MIN_ELEMENT_SIZE canvasWidth = r.width :=
    clamp_of_mem _ _ _ hwlo hwhi
  have eh : clamp r.height MIN_ELEMENT_SIZE canvasHeight = r.height :=
    clamp_of_mem _ _ _ hhlo hhhi
  simp only [clampRectToCanvas, ew, eh]
  have ex : clamp r.x 0 (canvasWidth - r.width) = r.x :=
    clamp_of_mem _ _ _ hxlo hxhi
  have ey : clamp r.y 0 (canvasHeight - r.height) = r.y :=
    clamp_of_mem _ _ _ hylo hyhi
  rw [ex, ey]

/-- C1 witness: a concrete oversized, negatively-positioned rectangle
inside a 100×200 canvas. -/
theorem clampRectToCanvas_bounds_and_idem_witness :
    MIN_ELEMENT_SIZE ≤ (100 : ℚ) ∧ MIN_ELEMENT_SIZE ≤ (200 : ℚ) ∧
    (let r := clampRectToCanvas ⟨-30, 500, 1000, 10⟩ 100 200
     MIN_ELEMENT_SIZE ≤ r.width ∧ MIN_ELEMENT_SIZE ≤ r.height ∧
     0 ≤ r.x ∧ r.x + r.width ≤ 100 ∧
     0 ≤ r.y ∧ r.y + r.height ≤ 200 ∧
     clampRectToCanvas r 100 200 = r) :=
  ⟨by norm_num [MIN_ELEMENT_SIZE], by norm_num [MIN_ELEMENT_SIZE],
    clampRectToCanvas_bounds_and_idem ⟨-30, 500, 1000, 10⟩ 100 200
      (by norm_num [MIN_ELEMENT_SIZE]) (by norm_num [MIN_ELEMENT_SIZE])⟩

/-! ## History manager (useCanvasHistory.ts)

`historyRef : string[]` and `indexRef : int` (starting at `-1`) are modelled
as an explicit state record; a snapshot (`JSON.stringify(canvas.toObject(...))`)
is an abstract value of type `α`.  `undo`/`redo` return the updated state
together with the snapshot handed to `canvas.loadFromJSON` (`none` on the
no-op paths).  The `isRestoring` guard only matters for re-entrant event
callbacks, which do not arise in this sequential model. -/

/-- State of `useCanvasHistory`: `historyRef.current` and `indexRef.current`. -/
structure HistoryState (α : Type) where
  entries : List α
  index : Int
  deriving DecidableEq, Repr

/-- Initial state: `useRef<string[]>([])`, `useRef(-1)`. -/
def HistoryState.init (α : Type) : HistoryState α := ⟨[], -1⟩

/-- `saveState`: drop redo branch when the cursor is not at the tail, append
the snapshot, move the cursor to the tail, and evict the oldest entry when
the list exceeds 50. -/
def saveState {α : Type} (s : HistoryState α) (json : α) : HistoryState α :=
  let entries :=
    if s.index < (s.entries.length : Int) - 1 then
      s.entries.take (s.index + 1).toNat
    else s.entries
  let entries := entries ++ [json]
  let index : Int := (entries.length : Int) - 1
  if 50 < entries.length then
    ⟨entries.drop 1, index - 1⟩
  else
    ⟨entries, index⟩

/-- `undo`: no-op when `index <= 0`, else decrement the cursor and reload
`entries[index]`. -/
def undo {α : Type} (s : HistoryState α) : HistoryState α × Option α :=
  if s.index ≤ 0 then (s, none)
  else
    let index := s.index - 1
    (⟨s.entries, index⟩, s.entries.get? index.toNat)

/-- `redo`: no-op when `index >= entries.length - 1`, else increment the
cursor and reload `entries[index]`. -/
def redo {α : Type} (s : HistoryState α) : HistoryState α × Option α :=
  if (s.entries.length : Int) - 1 ≤ s.index then (s, none)
  else
    let index := s.index + 1
    (⟨s.entries, index⟩, s.entries.get? index.toNat)

/-- History after `commit 10; commit 20; commit 30` from the empty state. -/
def histAfterCommits : HistoryState ℕ :=
  saveState (saveState (saveState (HistoryState.init ℕ) 10) 20) 30

/-- First `undo` after the three commits. -/
def histUndo1 : HistoryState ℕ × Option ℕ := undo histAfterCommits

/-- Second `undo`. -/
def histUndo2 : HistoryState ℕ × Option ℕ := undo histUndo1.1

/-- `redo` after the two undos. -/
def histRedo : HistoryState ℕ × Option ℕ := redo histUndo2.1

/-- `commit 40` after undo, undo, redo. -/
def histCommitD : HistoryState ℕ := saveState histRedo.1 40

/-- C2 -- After `commit A; commit B; commit C; undo; undo` the restored
snapshot is `A`; one further `redo` restores `B`; a `commit D` at that point
truncates the entries to the cursor before appending, so the entry list is
`[A, B, D]` and `C` is unreachable. -/
theorem history_undo_redo_truncate :
    histUndo2.2 = some 10 ∧ histRedo.2 = some 20 ∧
    histCommitD.entries = [10, 20, 40] ∧ 30 ∉ histCommitD.entries ∧
    histCommitD.index = (histCommitD.entries.length : Int) - 1 := by
  decide

/-- Eviction keeps the entry list at no more than 50 snapshots. -/
theorem saveState_length_le {α : Type} (s : HistoryState α) (a : α)
    (h : s.entries.length ≤ 50) : (saveState s a).entries.length ≤ 50 := by
  simp only [saveState]
  split_ifs <;>
    simp only [List.length_drop, List.length_append, List.length_take,
      List.length_cons, List.length_nil] at * <;>
    omega

theorem foldl_saveState_length_le {α : Type} (xs : List α) (s : HistoryState α)
    (h : s.entries.length ≤ 50) :
    (xs.foldl saveState s).entries.length ≤ 50 := by
  induction xs generalizing s with
  | nil => simpa using h
  | cons a xs ih => exact ih _ (saveState_length_le s a h)

set_option maxRecDepth 100000 in
/-- C8 -- 51 successive commits leave exactly 50 entries, the oldest entry
evicted and the cursor at the newest; and no commit sequence ever pushes
the entry count above 50. -/
theorem history_cap_fifty :
    (let s := (List.range 51).foldl saveState (HistoryState.init ℕ)
     s.entries.length = 50 ∧ s.entries = (List.range 51).drop 1 ∧
     (0 : ℕ) ∉ s.entries ∧ s.index = 49 ∧ s.index = (s.entries.length : Int) - 1) ∧
    ∀ xs : List ℕ, ((xs.foldl saveState (HistoryState.init ℕ)).entries.length ≤ 50) :=
  ⟨by decide, fun xs => foldl_saveState_length_le xs _ (by decide)⟩

/-! ## Resize handles (AdminTemplateStudioPage.tsx, resizeRectFromHandle) -/

/-- The eight resize handles. -/
inductive ResizeHandle where
  | n | e | s | w | ne | nw | se | sw
  deriving DecidableEq, Repr

/-- `handle.includes('e')`. -/
def ResizeHandle.hasE : ResizeHandle → Bool
  | .e | .ne | .se => true
  | _ => false

/-- `handle.includes('w')`. -/
def ResizeHandle.hasW : ResizeHandle → Bool
  | .w | .nw | .sw => true
  | _ => false

/-- `handle.includes('n')`. -/
def ResizeHandle.hasN : ResizeHandle → Bool
  | .n | .ne | .nw => true
  | _ => false

/-- `handle.includes('s')`. -/
def ResizeHandle.hasS : ResizeHandle → Bool
  | .s | .se | .sw => true
  | _ => false

/-- `resizeRectFromHandle(handle, startRect, deltaX, deltaY, canvasWidth,
canvasHeight)`: raw edge arithmetic, minimum-size enforcement (shifting the
origin only on `w`/`n` handles), negative-origin clamping (absorbed into the
size on `w`/`n` handles), far-bound clamping (shrinking the size on the
moving `e`/`s` edge, repositioning otherwise), then `clampRectToCanvas`.
The source mutates `nextX/nextY/nextWidth/nextHeight` in place; each `let`
rebinding below is one of those mutation steps in order. -/
def resizeRectFromHandle (handle : ResizeHandle) (startRect : TemplateRect)
    (deltaX deltaY canvasWidth canvasHeight : ℚ) : TemplateRect :=
  let nextX := startRect.x
  let nextY := startRect.y
  let nextWidth := startRect.width
  let nextHeight := startRect.height
  let nextWidth := if handle.hasE then startRect.width + deltaX else nextWidth
  let nextHeight := if handle.hasS then startRect.height + deltaY else nextHeight
  let p := if handle.hasW then (startRect.width - deltaX, startRect.x + deltaX)
           else (nextWidth, nextX)
  let nextWidth := p.1
  let nextX := p.2
  let q := if handle.hasN then (startRect.height - deltaY, startRect.y + deltaY)
           else (nextHeight, nextY)
  let nextHeight := q.1
  let nextY := q.2
  let p :=
    if nextWidth < MIN_ELEMENT_SIZE then
      ((if handle.hasW then nextX - (MIN_ELEMENT_SIZE - nextWidth) else nextX),
        MIN_ELEMENT_SIZE)
    else (nextX, nextWidth)
  let nextX := p.1
  let nextWidth := p.2
  let q :=
    if nextHeight < MIN_ELEMENT_SIZE then
      ((if handle.hasN then nextY - (MIN_ELEMENT_SIZE - nextHeight) else nextY),
        MIN_ELEMENT_SIZE)
    else (nextY, nextHeight)
  let nextY := q.1
  let nextHeight := q.2
  let p :=
    if nextX < 0 then
      ((if handle.hasW then nextWidth + nextX else nextWidth), 0)
    else (nextWidth, nextX)
  let nextWidth := p.1
  let nextX := p.2
  let q :=
    if nextY < 0 then
      ((if handle.hasN then nextHeight + nextY else nextHeight), 0)
    else (nextHeight, nextY)
  let nextHeight := q.1
  let nextY := q.2
  let p :=
    if canvasWidth < nextX + nextWidth then
      if handle.hasE then (canvasWidth - nextX, nextX)
      else (nextWidth, canvasWidth - nextWidth)
    else (nextWidth, nextX)
  let nextWidth := p.1
  let nextX := p.2
  let q :=
    if canvasHeight < nextY + nextHeight then
      if handle.hasS then (canvasHeight - nextY, nextY)
      else (nextHeight, canvasHeight - nextHeight)
    else (nextHeight, nextY)
  let nextHeight := q.1
  let nextY := q.2
  clampRectToCanvas ⟨nextX, nextY, nextWidth, nextHeight⟩ canvasWidth canvasHeight

/-- C4 -- Resizing `{x:10,y:10,w:100,h:80}` with the `se` handle by
`(+50,+30)` inside a 900×1273 canvas yields `{x:10,y:10,w:150,h:110}`;
by `(+10000,+10000)` it yields width `900-10` and height `1273-10` with
`x`, `y` unchanged: far-bound overflow on a moving edge shrinks the size
and never moves the fixed edge. -/
theorem resizeRectFromHandle_se_cases :
    resizeRectFromHandle .se ⟨10, 10, 100, 80⟩ 50 30 900 1273
      = ⟨10, 10, 150, 110⟩ ∧
    resizeRectFromHandle .se ⟨10, 10, 100, 80⟩ 10000 10000 900 1273
      = ⟨10, 10, 900 - 10, 1273 - 10⟩ := by
  refine ⟨?_, ?_⟩ <;>
    norm_num [resizeRectFromHandle, clampRectToCanvas, clamp, jsMin, jsMax,
      MIN_ELEMENT_SIZE, ResizeHandle.hasE, ResizeHandle.hasW,
      ResizeHandle.hasN, ResizeHandle.hasS, TemplateRect.mk.injEq]

/-! ## Studio data model (types/studio.ts) -/

/-- `ElementKind = 'frame' | 'image'`. -/
inductive ElementKind where
  | frame | image
  deriving DecidableEq, Repr

/-- `FitMode = 'cover' | 'contain'`. -/
inductive FitMode where
  | cover | contain
  deriving DecidableEq, Repr

/-- `BorderStyle = 'solid' | 'dashed'`. -/
inductive BorderStyle where
  | solid | dashed
  deriving DecidableEq, Repr

/-- `CanvasPreset = 'portrait' | 'landscape'`. -/
inductive CanvasPreset where
  | portrait | landscape
  deriving DecidableEq, Repr

/-- `TemplateElement` (extends `TemplateRect`); the optional `src` is `none`
when the field is absent. -/
structure TemplateElement where
  id : String
  kind : ElementKind
  name : String
  src : Option String
  fit : FitMode
  borderColor : String
  borderWidth : ℚ
  borderStyle : BorderStyle
  opacity : ℚ
  radius : ℚ
  x : ℚ
  y : ℚ
  width : ℚ
  height : ℚ
  deriving DecidableEq, Repr

/-- The rect part of a `TemplateElement`. -/
def TemplateElement.rect (e : TemplateElement) : TemplateRect :=
  ⟨e.x, e.y, e.width, e.height⟩

/-- Spread a rect over an element: `{ ...element, ...rect }`. -/
def TemplateElement.setRect (e : TemplateElement) (r : TemplateRect) :
    TemplateElement :=
  { e with x := r.x, y := r.y, width := r.width, height := r.height }

/-- `LayoutTemplate`. -/
structure LayoutTemplate where
  id : String
  name : String
  canvasWidth : ℚ
  canvasHeight : ℚ
  elements : List TemplateElement
  createdAt : String
  updatedAt : String
  deriving DecidableEq, Repr

/-! ## Canvas preset switch (AdminTemplateStudioPage.tsx, setCanvasPreset) -/

/-- The template update performed by `setCanvasPreset(preset)` on the active
template: pick the preset's width/height, return the template unchanged when
the dimensions already match, else set the new dimensions and re-clamp every
element's rect with `clampRectToCanvas`. -/
def setCanvasPreset (preset : CanvasPreset) (t : LayoutTemplate) :
    LayoutTemplate :=
  let width := match preset with
    | .portrait => DEFAULT_CANVAS_WIDTH
    | .landscape => DEFAULT_CANVAS_HEIGHT
  let height := match preset with
    | .portrait => DEFAULT_CANVAS_HEIGHT
    | .landscape => DEFAULT_CANVAS_WIDTH
  if t.canvasWidth = width ∧ t.canvasHeight = height then t
  else
    { t with
      canvasWidth := width
      canvasHeight := height
      elements := t.elements.map fun e =>
        e.setRect (clampRectToCanvas e.rect width height) }

/-- A concrete portrait template holding one element at `x = 850`,
`width = 100` (used for claim C5). -/
def presetDemoTemplate : LayoutTemplate :=
  { id := "t1"
    name := "Template 1"
    canvasWidth := 900
    canvasHeight := 1273
    elements := [
      { id := "e1", kind := .frame, name := "Frame 1", src := none,
        fit := .cover, borderColor := "#1f7a67", borderWidth := 2,
        borderStyle := .dashed, opacity := 1, radius := 14,
        x := 850, y := 0, width := 100, height := 100 }]
    createdAt := "2024-01-01T00:00:00.000Z"
    updatedAt := "2024-01-01T00:00:00.000Z" }

/-- C5 counterexample: switching `presetDemoTemplate` (portrait 900×1273)
to landscape 1273×900 leaves its element at `x = 850`, not `1273 - 100`:
the element fits the wider landscape canvas, so the x-clamp is a no-op. -/
theorem setCanvasPreset_claim_cex :
    ((setCanvasPreset .landscape presetDemoTemplate).elements.map
      TemplateElement.x) = [850] ∧ (850 : ℚ) ≠ 1273 - 100 := by
  constructor
  · norm_num [setCanvasPreset, presetDemoTemplate, DEFAULT_CANVAS_WIDTH,
      DEFAULT_CANVAS_HEIGHT, TemplateElement.setRect, TemplateElement.rect,
      clampRectToCanvas, clamp, jsMin, jsMax, MIN_ELEMENT_SIZE]
  · norm_num

/-- C5 (amended) -- Switching a 900×1273 portrait template to landscape swaps
the canvas dimensions to 1273×900, deletes no element, and re-clamps every
element against the new bounds; an element at `x = 850` with `width = 100`
keeps `x = 850` (it fits the new width), while the spec's `x = width - 100`
re-clamp occurs when the target width is 900: a rect at `x = 850`,
`width = 100` clamped to a 900-wide canvas gets `x = 900 - 100`. -/
theorem setCanvasPreset_landscape_reclamps (t : LayoutTemplate)
    (hw : t.canvasWidth = 900) (hh : t.canvasHeight = 1273) :
    let t2 := setCanvasPreset .landscape t
    t2.canvasWidth = 1273 ∧ t2.canvasHeight = 900 ∧
    t2.elements.length = t.elements.length ∧
    t2.elements = t.elements.map (fun e =>
      e.setRect (clampRectToCanvas e.rect 1273 900)) ∧
    (∀ r : TemplateRect, r.x = 850 → r.width = 100 →
      (clampRectToCanvas r 1273 900).x = 850 ∧
      (clampRectToCanvas r 900 1273).x = 900 - 100) := by
  intro t2
  have hguard : ¬(t.canvasWidth = DEFAULT_CANVAS_HEIGHT ∧
      t.canvasHeight = DEFAULT_CANVAS_WIDTH) := by
    rw [hw]; norm_num [DEFAULT_CANVAS_HEIGHT]
  have ht2 : t2 = { t with
      canvasWidth := DEFAULT_CANVAS_HEIGHT
      canvasHeight := DEFAULT_CANVAS_WIDTH
      elements := t.elements.map fun e =>
        e.setRect (clampRectToCanvas e.rect DEFAULT_CANVAS_HEIGHT
          DEFAULT_CANVAS_WIDTH) } := by
    show setCanvasPreset .landscape t = _
    simp only [setCanvasPreset, if_neg hguard]
  refine ⟨?_, ?_, ?_, ?_, ?_⟩
  · rw [ht2]; norm_num [DEFAULT_CANVAS_HEIGHT]
  · rw [ht2]; norm_num [DEFAULT_CANVAS_WIDTH]
  · rw [ht2]; simp [DEFAULT_CANVAS_HEIGHT, DEFAULT_CANVAS_WIDTH]
  · rw [ht2]; norm_num [DEFAULT_CANVAS_HEIGHT, DEFAULT_CANVAS_WIDTH]
  · intro r hx hwid
    constructor <;>
      norm_num [clampRectToCanvas, clamp, jsMin, jsMax, MIN_ELEMENT_SIZE,
        hx, hwid]

/-- C5 witness: the amended theorem applied to `presetDemoTemplate`. -/
theorem setCanvasPreset_landscape_reclamps_witness :
    presetDemoTemplate.canvasWidth = 900 ∧
    presetDemoTemplate.canvasHeight = 1273 ∧
    (let t2 := setCanvasPreset .landscape presetDemoTemplate
     t2.canvasWidth = 1273 ∧ t2.canvasHeight = 900 ∧
     t2.elements.length = presetDemoTemplate.elements.length ∧
     t2.elements = presetDemoTemplate.elements.map (fun e =>
       e.setRect (clampRectToCanvas e.rect 1273 900)) ∧
     (∀ r : TemplateRect, r.x = 850 → r.width = 100 →
       (clampRectToCanvas r 1273 900).x = 850 ∧
       (clampRectToCanvas r 900 1273).x = 900 - 100)) :=
  ⟨rfl, rfl, setCanvasPreset_landscape_reclamps presetDemoTemplate rfl rfl⟩

/-! ## Cloud push sanitizer (studioCloud.ts) -/

/-- `s.startsWith(p)` (JavaScript `String.prototype.startsWith`), as a
prefix test on the character sequences. -/
def jsStartsWith (s p : String) : Bool := p.data.isPrefixOf s.data

/-- Per-element step of `stripLocalOnlySources`: keep the element unless it
is an image whose non-empty `src` starts with `data:` or `blob:`, in which
case the `src` field is removed (`!element.src` makes the empty string fall
into the keep branch). -/
def stripElementLocalSrc (e : TemplateElement) : TemplateElement :=
  if e.kind ≠ .image then e
  else match e.src with
    | none => e
    | some s =>
      if s = "" then e
      else if jsStartsWith s "data:" || jsStartsWith s "blob:" then
        { e with src := none }
      else e

/-- `stripLocalOnlySources(templates)`. -/
def stripLocalOnlySources (templates : List LayoutTemplate) :
    List LayoutTemplate :=
  templates.map fun t => { t with elements := t.elements.map stripElementLocalSrc }

/-- The template list written to the remote store by `saveStudioTemplates`
(the `templates` field of the `setDoc` payload). -/
def saveStudioTemplatesPayload (templates : List LayoutTemplate) :
    List LayoutTemplate :=
  stripLocalOnlySources templates

/-- Case analysis of `stripElementLocalSrc`: an element is either returned
unchanged, or it is an image whose local (`data:`/`blob:`) source was
removed and nothing else changed. -/
theorem stripElementLocalSrc_cases (e : TemplateElement) :
    stripElementLocalSrc e = e ∨
    (stripElementLocalSrc e = { e with src := none } ∧ e.kind = .image ∧
      ∃ s, e.src = some s ∧
        (jsStartsWith s "data:" = true ∨ jsStartsWith s "blob:" = true)) := by
  by_cases hk : e.kind = .image
  · cases hs : e.src with
    | none => left; simp [stripElementLocalSrc, hk, hs]
    | some s =>
      by_cases he : s = ""
      · left; simp [stripElementLocalSrc, hk, hs, he]
      · by_cases hl : (jsStartsWith s "data:" || jsStartsWith s "blob:") = true
        · right
          refine ⟨by simp [stripElementLocalSrc, hk, hs, he, hl], hk, s, rfl, ?_⟩
          simpa [Bool.or_eq_true] using hl
        · left; simp [stripElementLocalSrc, hk, hs, he, hl]
  · left; simp [stripElementLocalSrc, hk]

/-- C9 -- The payload `saveStudioTemplates` writes contains no image element
whose `src` starts with `data:` or `blob:`; such `src` fields are removed
and every other field of every template and element — non-image elements
and images with remote URLs included — is unchanged. -/
theorem saveStudioTemplates_strips_local_sources
    (templates : List LayoutTemplate) :
    let out := saveStudioTemplatesPayload templates
    out = templates.map (fun t =>
      { t with elements := t.elements.map stripElementLocalSrc }) ∧
    (∀ t ∈ out, ∀ e ∈ t.elements, e.kind = .image → ∀ s, e.src = some s →
      jsStartsWith s "data:" = false ∧ jsStartsWith s "blob:" = false) ∧
    (∀ e : TemplateElement, stripElementLocalSrc e = e ∨
      stripElementLocalSrc e = { e with src := none }) ∧
    (∀ e : TemplateElement,
      (e.kind = .image → ∀ s, e.src = some s →
        jsStartsWith s "data:" = false ∧ jsStartsWith s "blob:" = false) →
      stripElementLocalSrc e = e) := by
  refine ⟨rfl, ?_, ?_, ?_⟩
  · intro t ht e he hk s hs
    simp only [saveStudioTemplatesPayload, stripLocalOnlySources,
      List.mem_map] at ht
    obtain ⟨t0, -, rfl⟩ := ht
    simp only [List.mem_map] at he
    obtain ⟨e0, -, rfl⟩ := he
    rcases stripElementLocalSrc_cases e0 with h | ⟨h, -, -⟩
    · rw [h] at hk hs
      by_cases hk0 : e0.kind = .image
      · cases hs0 : e0.src with
        | none => rw [hs0] at hs; cases hs
        | some s1 =>
          rw [hs0] at hs
          rcases hs with ⟨rfl⟩
          by_cases he0 : s = ""
          · subst he0; exact ⟨by decide, by decide⟩
          · by_cases hl : (jsStartsWith s "data:" || jsStartsWith s "blob:") = true
            · exfalso
              have hstrip : stripElementLocalSrc e0 = { e0 with src := none } := by
                simp [stripElementLocalSrc, hk0, hs0, he0, hl]
              rw [hstrip] at h
              have hsrc := congrArg TemplateElement.src h
              simp [hs0] at hsrc
            · simpa [Bool.or_eq_true] using hl
      · exact absurd hk hk0
    · rw [h] at hs
      cases hs
  · intro e
    rcases stripElementLocalSrc_cases e with h | ⟨h, -, -⟩
    · exact Or.inl h
    · exact Or.inr h
  · intro e he
    rcases stripElementLocalSrc_cases e with h | ⟨-, hk, s, hs, hl⟩
    · exact h
    · rcases he hk s hs with ⟨h1, h2⟩
      rcases hl with hl | hl
      · rw [h1] at hl; cases hl
      · rw [h2] at hl; cases hl

/-- An image element with a remote URL, used as the C9 witness input. -/
def remoteImageElement : TemplateElement :=
  { id := "e2", kind := .image, name := "Image 1",
    src := some "https://example.com/a.png", fit := .cover,
    borderColor := "#1f7a67", borderWidth := 2, borderStyle := .dashed,
    opacity := 1, radius := 14, x := 0, y := 0, width := 280, height := 200 }

/-- C9 witness: the unchanged-field conjunct applied to a concrete image
element with a remote URL. -/
theorem saveStudioTemplates_strips_local_sources_witness :
    stripElementLocalSrc remoteImageElement = remoteImageElement :=
  (saveStudioTemplates_strips_local_sources []).2.2.2 remoteImageElement
    (by intro _ s hs; cases hs; exact ⟨by decide, by decide⟩)

/-! ## Template import sanitization (AdminTemplateStudioPage.tsx,
sanitizeTemplateElement)

A `Partial<TemplateElement>` field run through `Number(...)` is either a
real number or `NaN` (missing field, non-numeric value); `JsNum` captures
exactly that.  `value || default` treats both `NaN` and `0` as falsy. -/

/-- The result of a JavaScript `Number(...)` conversion. -/
inductive JsNum where
  | nan
  | num (q : ℚ)
  deriving DecidableEq, Repr

/-- `Number(x) || d`: `NaN` and `0` are falsy and yield the default. -/
def JsNum.orDefault : JsNum → ℚ → ℚ
  | .nan, d => d
  | .num q, d => if q = 0 then d else q

/-- A `Partial<TemplateElement>` candidate as seen by
`sanitizeTemplateElement`: string-typed fields are `none` when absent or of
the wrong runtime type, numeric fields carry the `Number(...)` conversion
of whatever was present. -/
structure ElementCandidate where
  id : Option String
  kind : Option String
  name : Option String
  src : Option String
  fit : Option String
  borderColor : Option String
  borderStyle : Option String
  x : JsNum
  y : JsNum
  width : JsNum
  height : JsNum
  borderWidth : JsNum
  opacity : JsNum
  radius : JsNum
  deriving DecidableEq, Repr

/-- `sanitizeTemplateElement(candidate, canvasWidth, canvasHeight, index)`.
`freshId` stands for the `createId()` value used when the candidate has no
string `id`. -/
def sanitizeTemplateElement (c : ElementCandidate)
    (canvasWidth canvasHeight : ℚ) (index : Nat) (freshId : String) :
    TemplateElement :=
  let kind : ElementKind := if c.kind = some "image" then .image else .frame
  let rect := clampRectToCanvas
    ⟨c.x.orDefault 0, c.y.orDefault 0,
      c.width.orDefault 280, c.height.orDefault 200⟩
    canvasWidth canvasHeight
  let fit : FitMode := if c.fit = some "contain" then .contain else .cover
  let borderStyle : BorderStyle :=
    if c.borderStyle = some "solid" then .solid else .dashed
  { id := c.id.getD freshId
    kind := kind
    name := match c.name with
      | some n => n
      | none =>
        (if kind = .image then "Image " else "Frame ") ++ toString (index + 1)
    src := if kind = .image then c.src else none
    fit := fit
    borderColor := c.borderColor.getD "#1f7a67"
    borderWidth := clamp (c.borderWidth.orDefault 2) 0 16
    borderStyle := borderStyle
    opacity := clamp (c.opacity.orDefault 1) (1/10) 1
    radius := clamp (c.radius.orDefault 14) 0 80
    x := rect.x
    y := rect.y
    width := rect.width
    height := rect.height }

/-- A candidate whose fields are all absent except where overridden. -/
def emptyCandidate : ElementCandidate :=
  { id := none, kind := none, name := none, src := none, fit := none,
    borderColor := none, borderStyle := none,
    x := .nan, y := .nan, width := .nan, height := .nan,
    borderWidth := .nan, opacity := .nan, radius := .nan }

/-- C10 counterexample: a candidate with `opacity = -1` is sanitized to the
minimum `0.1` although `-1` is not strictly between `0` and `0.1`, so
"only opacities strictly between 0 and 0.1 are raised to 0.1" fails. -/
theorem sanitizeTemplateElement_opacity_cex :
    (sanitizeTemplateElement { emptyCandidate with opacity := .num (-1) }
      900 1273 0 "fresh").opacity = 1/10 ∧
    ¬((0 : ℚ) < -1 ∧ (-1 : ℚ) < 1/10) := by
  constructor
  · norm_num [sanitizeTemplateElement, emptyCandidate, JsNum.orDefault,
      clamp, jsMin, jsMax]
  · norm_num

/-- C10 (amended) -- Sanitization replaces a falsy (`0`, missing or
non-numeric, hence `NaN`) opacity with the default `1` before clamping to
`[0.1, 1]`, so such elements get opacity `1`, not the minimum `0.1`;
every nonzero numeric opacity below `0.1` — negative values included, not
just those strictly between `0` and `0.1` — is raised to `0.1`, while
opacities already in `[0.1, 1]` are kept.  The same falsy-default rule
sends `x`/`y` of `0` or `NaN` to `0` and a `borderWidth` of `0` or `NaN`
to the default `2` before clamping. -/
theorem sanitizeTemplateElement_falsy_defaults (c : ElementCandidate)
    (canvasWidth canvasHeight : ℚ) (index : Nat) (freshId : String)
    (hW : MIN_ELEMENT_SIZE ≤ canvasWidth)
    (hH : MIN_ELEMENT_SIZE ≤ canvasHeight) :
    let e := sanitizeTemplateElement c canvasWidth canvasHeight index freshId
    ((c.opacity = .nan ∨ c.opacity = .num 0) → e.opacity = 1) ∧
    (∀ q, c.opacity = .num q → q ≠ 0 → q < 1/10 → e.opacity = 1/10) ∧
    (∀ q, c.opacity = .num q → 1/10 ≤ q → q ≤ 1 → e.opacity = q) ∧
    ((c.x = .nan ∨ c.x = .num 0) → e.x = 0) ∧
    ((c.y = .nan ∨ c.y = .num 0) → e.y = 0) ∧
    ((c.borderWidth = .nan ∨ c.borderWidth = .num 0) → e.borderWidth = 2) := by
  intro e
  have hox : ∀ (j : JsNum) (d : ℚ), (j = .nan ∨ j = .num 0) →
      j.orDefault d = d := by
    rintro j d (rfl | rfl) <;> simp [JsNum.orDefault]
  refine ⟨?_, ?_, ?_, ?_, ?_, ?_⟩
  · intro h
    show clamp (c.opacity.orDefault 1) (1/10) 1 = 1
    rw [hox _ _ h]
    exact clamp_of_mem _ _ _ (by norm_num) le_rfl
  · intro q hq hq0 hqlt
    show clamp (c.opacity.orDefault 1) (1/10) 1 = 1/10
    rw [hq]
    show clamp (if q = 0 then 1 else q) (1/10) 1 = 1/10
    rw [if_neg hq0, clamp_eq_min_max, max_eq_left (le_of_lt hqlt)]
    norm_num
  · intro q hq hlo hhi
    show clamp (c.opacity.orDefault 1) (1/10) 1 = q
    have hq0 : q ≠ 0 := by intro h0; rw [h0] at hlo; norm_num at hlo
    rw [hq]
    show clamp (if q = 0 then 1 else q) (1/10) 1 = q
    rw [if_neg hq0]
    exact clamp_of_mem _ _ _ hlo hhi
  · intro h
    show clamp (c.x.orDefault 0) 0
      (canvasWidth - clamp (c.width.orDefault 280) MIN_ELEMENT_SIZE
        canvasWidth) = 0
    rw [hox _ _ h]
    have hcw := clamp_le_hi (c.width.orDefault 280) MIN_ELEMENT_SIZE canvasWidth
    exact clamp_of_mem _ _ _ le_rfl (by linarith)
  · intro h
    show clamp (c.y.orDefault 0) 0
      (canvasHeight - clamp (c.height.orDefault 200) MIN_ELEMENT_SIZE
        canvasHeight) = 0
    rw [hox _ _ h]
    have hch := clamp_le_hi (c.height.orDefault 200) MIN_ELEMENT_SIZE canvasHeight
    exact clamp_of_mem _ _ _ le_rfl (by linarith)
  · intro h
    show clamp (c.borderWidth.orDefault 2) 0 16 = 2
    rw [hox _ _ h]
    exact clamp_of_mem _ _ _ (by norm_num) (by norm_num)

/-- C10 witness: the fully-absent candidate on the default 900×1273 canvas
gets opacity `1`, x `0` and borderWidth `2`. -/
theorem sanitizeTemplateElement_falsy_defaults_witness :
    MIN_ELEMENT_SIZE ≤ (900 : ℚ) ∧ MIN_ELEMENT_SIZE ≤ (1273 : ℚ) ∧
    (sanitizeTemplateElement emptyCandidate 900 1273 0 "fresh").opacity = 1 ∧
    (sanitizeTemplateElement emptyCandidate 900 1273 0 "fresh").x = 0 ∧
    (sanitizeTemplateElement emptyCandidate 900 1273 0 "fresh").borderWidth
      = 2 := by
  have h := sanitizeTemplateElement_falsy_defaults emptyCandidate 900 1273 0
    "fresh" (by norm_num [MIN_ELEMENT_SIZE]) (by norm_num [MIN_ELEMENT_SIZE])
  exact ⟨by norm_num [MIN_ELEMENT_SIZE], by norm_num [MIN_ELEMENT_SIZE],
    h.1 (Or.inl rfl), h.2.2.2.1 (Or.inl rfl), h.2.2.2.2.2 (Or.inl rfl)⟩

/-! ## Auto-layout engine (autoLayout.ts)

Zone ratios, heading font size, and the image-zone cell geometry, extracted
from `autoLayout` and `placeImage`.  Text measurement (`calcTextHeight`) is
an external fabric.js concern and does not enter the claims below. -/

/-- `InputText.role`. -/
inductive TextRole where
  | heading | subheading | body
  deriving DecidableEq, Repr

/-- `InputText` from `types/project.ts`. -/
structure InputText where
  id : String
  content : String
  role : TextRole
  deriving DecidableEq, Repr

/-- `InputImage` from `types/project.ts` (the fields `autoLayout` reads;
`width`/`height` are the natural pixel dimensions of the decoded image). -/
structure InputImage where
  id : String
  url : String
  originalName : String
  width : ℚ
  height : ℚ
  deriving DecidableEq, Repr

/-- `texts.filter((t) => t.role === 'heading')`. -/
def headings (texts : List InputText) : List InputText :=
  texts.filter fun t => decide (t.role = TextRole.heading)

/-- `texts.filter((t) => t.role === 'subheading')`. -/
def subheadings (texts : List InputText) : List InputText :=
  texts.filter fun t => decide (t.role = TextRole.subheading)

/-- `texts.filter((t) => t.role === 'body')`. -/
def bodies (texts : List InputText) : List InputText :=
  texts.filter fun t => decide (t.role = TextRole.body)

/-- `hasHeading = headings.length > 0 || subheadings.length > 0`. -/
def hasHeading (texts : List InputText) : Prop :=
  0 < (headings texts).length ∨ 0 < (subheadings texts).length

instance (texts : List InputText) : Decidable (hasHeading texts) := by
  unfold hasHeading; infer_instance

/-- `hasBody = bodies.length > 0`. -/
def hasBody (texts : List InputText) : Prop :=
  0 < (bodies texts).length

instance (texts : List InputText) : Decidable (hasBody texts) := by
  unfold hasBody; infer_instance

/-- `headingRatio = hasHeading ? 0.18 : 0`. -/
def headingRatio (texts : List InputText) : ℚ :=
  if hasHeading texts then 18/100 else 0

/-- `bodyRatio = hasBody ? 0.2 : 0`. -/
def bodyRatio (texts : List InputText) : ℚ :=
  if hasBody texts then 2/10 else 0

/-- `imageRatio = 1 - headingRatio - bodyRatio`. -/
def imageRatio (texts : List InputText) : ℚ :=
  1 - headingRatio texts - bodyRatio texts

/-- Heading font size:
`Math.max(Math.min(48, contentWidth / (len * 0.6)), 20)`.  For an empty
content string JavaScript divides a positive `contentWidth` by `0`, giving
`Infinity`, which the outer `min`/`max` collapse to `48`; the `len = 0`
branch encodes that (all call sites have `contentWidth > 0`). -/
def headingFontSize (contentWidth : ℚ) (len : ℕ) : ℚ :=
  if len = 0 then 48
  else jsMax (jsMin 48 (contentWidth / ((len : ℚ) * (6/10)))) 20

theorem hasHeading_iff (ts : List InputText) :
    hasHeading ts ↔ ∃ t ∈ ts, t.role = .heading ∨ t.role = .subheading := by
  simp only [hasHeading, headings, subheadings, List.length_pos_iff_exists_mem,
    List.mem_filter, decide_eq_true_eq]
  constructor
  · rintro (⟨t, ht, hr⟩ | ⟨t, ht, hr⟩)
    · exact ⟨t, ht, Or.inl hr⟩
    · exact ⟨t, ht, Or.inr hr⟩
  · rintro ⟨t, ht, hr | hr⟩
    · exact Or.inl ⟨t, ht, hr⟩
    · exact Or.inr ⟨t, ht, hr⟩

theorem hasBody_iff (ts : List InputText) :
    hasBody ts ↔ ∃ t ∈ ts, t.role = .body := by
  simp only [hasBody, bodies, List.length_pos_iff_exists_mem,
    List.mem_filter, decide_eq_true_eq]

theorem max_min_48_20 (v : ℚ) :
    jsMax (jsMin 48 v) 20 = clamp v 20 48 := by
  rw [jsMax_eq_max, jsMin_eq_min, clamp_eq_min_max]
  rcases le_total v 20 with h1 | h1
  · have h2 : v ≤ 48 := le_trans h1 (by norm_num)
    rw [min_eq_right h2, max_eq_right h1, max_eq_left h1,
      min_eq_right (by norm_num : (20 : ℚ) ≤ 48)]
  · rcases le_total v 48 with h2 | h2
    · rw [min_eq_right h2, max_eq_left h1, max_eq_right h1, min_eq_right h2]
    · rw [min_eq_left h2, max_eq_left (by norm_num : (20 : ℚ) ≤ 48),
        max_eq_right h1, min_eq_left h2]

/-- C6 -- The heading zone ratio is `0.18` exactly when a heading or
subheading text exists (else `0`), the body ratio is `0.20` exactly when a
body text exists (else `0`), the image zone gets the remainder
`1 - heading - body`; the ratios depend only on which categories are
present, never on how much content there is; and each heading's font size
is `contentWidth / (len(text) * 0.6)` clamped to `[20, 48]`. -/
theorem autoLayout_zone_ratios_and_heading_font :
    (∀ ts : List InputText,
      (headingRatio ts =
        if ∃ t ∈ ts, t.role = .heading ∨ t.role = .subheading then 18/100
        else 0) ∧
      (bodyRatio ts = if ∃ t ∈ ts, t.role = .body then 2/10 else 0) ∧
      imageRatio ts = 1 - headingRatio ts - bodyRatio ts) ∧
    (∀ ts1 ts2 : List InputText,
      ((∃ t ∈ ts1, t.role = .heading ∨ t.role = .subheading) ↔
        (∃ t ∈ ts2, t.role = .heading ∨ t.role = .subheading)) →
      ((∃ t ∈ ts1, t.role = .body) ↔ (∃ t ∈ ts2, t.role = .body)) →
      headingRatio ts1 = headingRatio ts2 ∧ bodyRatio ts1 = bodyRatio ts2 ∧
        imageRatio ts1 = imageRatio ts2) ∧
    (∀ (contentWidth : ℚ) (len : ℕ), 0 < len →
      headingFontSize contentWidth len =
        clamp (contentWidth / ((len : ℚ) * (6/10))) 20 48) := by
  refine ⟨?_, ?_, ?_⟩
  · intro ts
    refine ⟨?_, ?_, rfl⟩
    · simp only [headingRatio]
      exact if_congr (hasHeading_iff ts) rfl rfl
    · simp only [bodyRatio]
      exact if_congr (hasBody_iff ts) rfl rfl
  · intro ts1 ts2 h1 h2
    have e1 : hasHeading ts1 ↔ hasHeading ts2 :=
      (hasHeading_iff ts1).trans (h1.trans (hasHeading_iff ts2).symm)
    have e2 : hasBody ts1 ↔ hasBody ts2 :=
      (hasBody_iff ts1).trans (h2.trans (hasBody_iff ts2).symm)
    have eh : headingRatio ts1 = headingRatio ts2 := by
      simp only [headingRatio]; exact if_congr e1 rfl rfl
    have eb : bodyRatio ts1 = bodyRatio ts2 := by
      simp only [bodyRatio]; exact if_congr e2 rfl rfl
    exact ⟨eh, eb, by simp only [imageRatio, eh, eb]⟩
  · intro contentWidth len hlen
    rw [headingFontSize, if_neg (Nat.pos_iff_ne_zero.mp hlen),
      max_min_48_20]

/-- C6 witness: one heading of five characters on the portrait A4 content
width `714`. -/
theorem autoLayout_zone_ratios_and_heading_font_witness :
    0 < 5 ∧ headingFontSize 714 5 = clamp (714 / ((5 : ℚ) * (6/10))) 20 48 :=
  ⟨by norm_num,
    autoLayout_zone_ratios_and_heading_font.2.2 714 5 (by norm_num)⟩

/-- One target cell `(x, y, maxWidth, maxHeight)` handed to `placeImage`. -/
structure ImageCell where
  x : ℚ
  y : ℚ
  w : ℚ
  h : ℚ
  deriving DecidableEq, Repr

/-- The list of cells the image zone hands to `placeImage`, in image order,
from the `if images.length === 1 / 2 / 3 / else` cascade of `autoLayout`
(`gap = 16`;  `pad`/`currentY` are the zone's top-left corner,
`contentWidth`/`zoneHeight` its extent). -/
def imageCells (pad currentY contentWidth zoneHeight : ℚ) (n : ℕ) :
    List ImageCell :=
  let gap : ℚ := 16
  if n = 1 then
    [⟨pad, currentY, contentWidth, zoneHeight - gap⟩]
  else if n = 2 then
    let cellWidth := (contentWidth - gap) / 2
    [⟨pad, currentY, cellWidth, zoneHeight - gap⟩,
     ⟨pad + cellWidth + gap, currentY, cellWidth, zoneHeight - gap⟩]
  else if n = 3 then
    let leftWidth := contentWidth * (6/10) - gap / 2
    let rightWidth := contentWidth * (4/10) - gap / 2
    let halfHeight := (zoneHeight - gap * 2) / 2
    [⟨pad, currentY, leftWidth, zoneHeight - gap⟩,
     ⟨pad + leftWidth + gap, currentY, rightWidth, halfHeight⟩,
     ⟨pad + leftWidth + gap, currentY + halfHeight + gap, rightWidth,
       halfHeight⟩]
  else
    let cols : ℕ := 2
    let rows : ℕ := (n + cols - 1) / cols
    let cellWidth := (contentWidth - gap * ((cols : ℚ) - 1)) / (cols : ℚ)
    let cellHeight := (zoneHeight - gap * ((rows : ℚ) + 1)) / (rows : ℚ)
    (List.range n).map fun i =>
      ⟨pad + ((i % cols : ℕ) : ℚ) * (cellWidth + gap),
        currentY + ((i / cols : ℕ) : ℚ) * (cellHeight + gap),
        cellWidth, cellHeight⟩

/-- The object placement computed by `placeImage`: scale factor and
top-left position (`none` when the decoded image has a zero dimension,
`if (!img.width || !img.height) return`). -/
structure PlacedImage where
  scale : ℚ
  left : ℚ
  top : ℚ
  deriving DecidableEq, Repr

/-- `placeImage(canvas, imageData, x, y, maxWidth, maxHeight)`. -/
def placeImage (img : InputImage) (x y maxWidth maxHeight : ℚ) :
    Option PlacedImage :=
  if img.width = 0 ∨ img.height = 0 then none
  else
    let scaleX := maxWidth / img.width
    let scaleY := maxHeight / img.height
    let scale := jsMin scaleX scaleY
    some ⟨scale,
      x + (maxWidth - img.width * scale) / 2,
      y + (maxHeight - img.height * scale) / 2⟩

/-- C7 counterexample: with 3 images on content width `714` the first
(large left) cell is `714 × 0.6 - 8 = 420.4` wide — not 60% of the content
width (`428.4`): the code subtracts half the 16px gap from each column. -/
theorem imageCells_three_sixty_percent_cex :
    (imageCells 40 0 714 500 3).head?.map ImageCell.w = some (2102/5) ∧
    (2102/5 : ℚ) ≠ (6/10) * 714 := by
  constructor
  · norm_num [imageCells]
  · norm_num

/-- C7 (amended) -- With exactly 3 images the first image gets one large
left cell of 60% of the content width minus half the 16px gap and the other
two get stacked right cells of 40% width minus half the gap, split evenly
with a gap; with `n ≥ 4` images a 2-column grid of `ceil(n/2)` rows is used
with each cell `(zoneWidth - gap)/2` wide and
`(zoneHeight - gap*(rows+1))/rows` tall; every placed image is scaled by
`min(cellWidth/naturalWidth, cellHeight/naturalHeight)` and centered in its
cell. -/
theorem autoLayout_image_zone_cells (pad y contentWidth zoneHeight : ℚ) :
    (imageCells pad y contentWidth zoneHeight 3 =
      [⟨pad, y, contentWidth * (6/10) - 8, zoneHeight - 16⟩,
       ⟨pad + (contentWidth * (6/10) - 8) + 16, y,
         contentWidth * (4/10) - 8, (zoneHeight - 32) / 2⟩,
       ⟨pad + (contentWidth * (6/10) - 8) + 16,
         y + (zoneHeight - 32) / 2 + 16,
         contentWidth * (4/10) - 8, (zoneHeight - 32) / 2⟩]) ∧
    (∀ n : ℕ, 4 ≤ n →
      (imageCells pad y contentWidth zoneHeight n).length = n ∧
      ∀ i : ℕ, i < n →
        (imageCells pad y contentWidth zoneHeight n).get? i = some
          ⟨pad + ((i % 2 : ℕ) : ℚ) * ((contentWidth - 16) / 2 + 16),
            y + ((i / 2 : ℕ) : ℚ) *
              ((zoneHeight - 16 * (((n + 1) / 2 : ℕ) + 1)) /
                (((n + 1) / 2 : ℕ) : ℚ) + 16),
            (contentWidth - 16) / 2,
            (zoneHeight - 16 * (((n + 1) / 2 : ℕ) + 1)) /
              (((n + 1) / 2 : ℕ) : ℚ)⟩) ∧
    (∀ (img : InputImage) (x y0 maxW maxH : ℚ),
      img.width ≠ 0 → img.height ≠ 0 →
      ∃ p, placeImage img x y0 maxW maxH = some p ∧
        p.scale = min (maxW / img.width) (maxH / img.height) ∧
        p.left + img.width * p.scale / 2 = x + maxW / 2 ∧
        p.top + img.height * p.scale / 2 = y0 + maxH / 2) := by
  refine ⟨?_, ?_, ?_⟩
  · norm_num [imageCells]
  · intro n hn
    have h1 : n ≠ 1 := by omega
    have h2 : n ≠ 2 := by omega
    have h3 : n ≠ 3 := by omega
    constructor
    · simp [imageCells, h1, h2, h3]
    · intro i hi
      simp only [imageCells, if_neg h1, if_neg h2, if_neg h3]
      rw [List.get?_map, List.get?_range hi]
      norm_num
  · intro img x y0 maxW maxH hw hh0
    refine ⟨⟨jsMin (maxW / img.width) (maxH / img.height),
      x + (maxW - img.width *
        jsMin (maxW / img.width) (maxH / img.height)) / 2,
      y0 + (maxH - img.height *
        jsMin (maxW / img.width) (maxH / img.height)) / 2⟩, ?_, ?_, ?_, ?_⟩
    · rw [placeImage, if_neg (by push_neg; exact ⟨hw, hh0⟩)]
    · exact jsMin_eq_min _ _
    · ring
    · ring

/-- C7 witness: the grid shape at `n = 5` on a concrete zone, and the
placement of a 100×50 image in a 200×100 cell. -/
theorem autoLayout_image_zone_cells_witness :
    (4 ≤ 5 ∧ (1 : ℕ) < 5 ∧
      (imageCells 40 0 714 500 5).get? 1 = some
        ⟨40 + 1 * ((714 - 16) / 2 + 16), 0 + 0 * ((500 - 16 * 4) / 3 + 16),
          (714 - 16) / 2, (500 - 16 * 4) / 3⟩) ∧
    ((100 : ℚ) ≠ 0 ∧ (50 : ℚ) ≠ 0 ∧
      ∃ p, placeImage ⟨"img", "url", "name", 100, 50⟩ 0 0 200 100 = some p ∧
        p.scale = min ((200 : ℚ) / 100) ((100 : ℚ) / 50) ∧
        p.left + 100 * p.scale / 2 = 0 + 200 / 2 ∧
        p.top + 50 * p.scale / 2 = 0 + 100 / 2) := by
  constructor
  · refine ⟨by norm_num, by norm_num, ?_⟩
    have h := ((autoLayout_image_zone_cells 40 0 714 500).2.1 5
      (by norm_num)).2 1 (by norm_num)
    rw [h]
    norm_num
  · exact ⟨by norm_num, by norm_num,
      (autoLayout_image_zone_cells 40 0 714 500).2.2
        ⟨"img", "url", "name", 100, 50⟩ 0 0 200 100
        (by norm_num) (by norm_num)⟩

/-! ## Serialization recovery (deserializeCanvas / sanitizeCanvasObject)

A parsed canvas document is `{ objects?: CanvasObjectLike[], ... }`; an
object is an image (with an optional string `src`), a group (with an
optional child array), or anything else.  The decode probe
(`canDecodeImage`) is a parameter `decodes : String → Bool`.
`canvas.loadFromJSON` is external (fabric.js); per the serialization
contract it fails with an asset-load error when a referenced image cannot
be decoded, and fails on a document whose top-level shape is not a
recognizable scene. -/

/-- One entry of a serialized canvas document. -/
inductive CanvasObj where
  | image (src : Option String)
  | group (objects : Option (List CanvasObj))
  | other (tag : String)

/-- A parsed canvas document: the optional top-level `objects` array plus
the remaining top-level fields (carried through `{ ...parsed }`),
represented by `version`. -/
structure CanvasDocument where
  objects : Option (List CanvasObj)
  version : String

/-- Errors of the external loader. -/
inductive LoadError where
  | assetLoad (srcs : List String)
  | malformed (tag : String)
  deriving DecidableEq, Repr

mutual

/-- `sanitizeCanvasObject(obj)`: drop an image whose decode probe fails,
recursively prune a group's children, keep everything else. -/
def sanitizeCanvasObject (decodes : String → Bool) :
    CanvasObj → Option CanvasObj
  | .image (some src) =>
    if decodes src then some (.image (some src)) else none
  | .image none => some (.image none)
  | .group (some children) =>
    some (.group (some (sanitizeCanvasList decodes children)))
  | .group none => some (.group none)
  | .other tag => some (.other tag)

/-- `children.map(sanitizeCanvasObject)` followed by
`.filter((child) => child !== null)`. -/
def sanitizeCanvasList (decodes : String → Bool) :
    List CanvasObj → List CanvasObj
  | [] => []
  | c :: cs =>
    match sanitizeCanvasObject decodes c with
    | none => sanitizeCanvasList decodes cs
    | some c2 => c2 :: sanitizeCanvasList decodes cs

end

mutual

/-- The sources inside one object whose decode probe fails. -/
def undecodableSrcs (decodes : String → Bool) : CanvasObj → List String
  | .image (some src) => if decodes src then [] else [src]
  | .image none => []
  | .group (some children) => undecodableSrcsList decodes children
  | .group none => []
  | .other _ => []

/-- The undecodable sources across a list of objects. -/
def undecodableSrcsList (decodes : String → Bool) :
    List CanvasObj → List String
  | [] => []
  | c :: cs => undecodableSrcs decodes c ++ undecodableSrcsList decodes cs

end

/-- The external `canvas.loadFromJSON`, modelled per the serialization
contract: a document without an object list is not a recognizable scene
and fails; otherwise the load fails exactly when some referenced image
cannot be decoded, carrying the failing sources. -/
def loadFromJSON (decodes : String → Bool) (doc : CanvasDocument) :
    Except LoadError (List CanvasObj) :=
  match doc.objects with
  | none => .error (.malformed doc.version)
  | some objs =>
    if undecodableSrcsList decodes objs = [] then .ok objs
    else .error (.assetLoad (undecodableSrcsList decodes objs))

/-- `deserializeCanvas(canvas, json)`: try the plain load; on failure,
rethrow the original error when the parsed document has no object array,
else prune with `sanitizeCanvasObject` and load the pruned document
(`{ ...parsed, objects: sanitizedObjects.filter(...) }`). -/
def deserializeCanvas (decodes : String → Bool) (doc : CanvasDocument) :
    Except LoadError (List CanvasObj) :=
  match loadFromJSON decodes doc with
  | .ok objs => .ok objs
  | .error err =>
    match doc.objects with
    | none => .error err
    | some objs =>
      loadFromJSON decodes
        { doc with objects := some (sanitizeCanvasList decodes objs) }

/-- The decode probe used in the concrete C3 scenarios: every source
decodes except `"bad"`. -/
def demoDecodes (s : String) : Bool := decide (s ≠ "bad")

/-- A document with one decodable and one undecodable top-level image. -/
def demoDocTop : CanvasDocument :=
  ⟨some [.image (some "good"), .image (some "bad")], "5.3.0"⟩

/-- A document whose undecodable image sits inside a group, next to a
non-image child, with a further non-image object at the top level. -/
def demoDocNested : CanvasDocument :=
  ⟨some [.group (some [.image (some "good"), .image (some "bad"),
    .other "textbox"]), .other "caption"], "5.3.0"⟩

/-- C3 -- Deserializing a document with one decodable and one undecodable
top-level image yields a scene with only the decodable image and does not
raise; an undecodable image nested in a group is dropped from the group
while the group and all non-image objects are kept; and when the document
has no object list the original load error propagates un-recovered. -/
theorem deserializeCanvas_recovery :
    deserializeCanvas demoDecodes demoDocTop = .ok [.image (some "good")] ∧
    deserializeCanvas demoDecodes demoDocNested =
      .ok [.group (some [.image (some "good"), .other "textbox"]),
        .other "caption"] ∧
    (∀ (decodes : String → Bool) (doc : CanvasDocument),
      doc.objects = none →
      deserializeCanvas decodes doc = loadFromJSON decodes doc ∧
      deserializeCanvas decodes doc = .error (.malformed doc.version)) := by
  refine ⟨?_, ?_, ?_⟩
  · simp [deserializeCanvas, loadFromJSON, demoDocTop, demoDecodes,
      undecodableSrcsList, undecodableSrcs, sanitizeCanvasList,
      sanitizeCanvasObject]
  · simp [deserializeCanvas, loadFromJSON, demoDocNested, demoDecodes,
      undecodableSrcsList, undecodableSrcs, sanitizeCanvasList,
      sanitizeCanvasObject]
  intro decodes doc h
  have hload : loadFromJSON decodes doc = .error (.malformed doc.version) := by
    rw [loadFromJSON, h]
  constructor
  · rw [deserializeCanvas, hload, h]
  · rw [deserializeCanvas, hload, h]

/-- C3 witness: a concrete document with no object list ends in the
original malformed-document error. -/
theorem deserializeCanvas_recovery_witness :
    (⟨none, "5.3.0"⟩ : CanvasDocument).objects = none ∧
    deserializeCanvas demoDecodes ⟨none, "5.3.0"⟩ =
      .error (.malformed "5.3.0") :=
  ⟨rfl, (deserializeCanvas_recovery.2.2 demoDecodes ⟨none, "5.3.0"⟩ rfl).2⟩

end Kaientai
